import Mathlib

/-
Verification of the scikits.odes dae module (src/scikits/odes/dae.py):
the abstract DaeBase contract, the dae facade, and the backend
registry/discovery logic of find_dae_integrator, shallowly embedded in Lean.
-/

set_option autoImplicit false

/-- Python exception values relevant to the dae module. The constructor
`sequenceError` is the spec's SequenceError kind for step-before-init usage
errors; the concrete backend that raises it is not under src and is modelled
from the spec. -/
inductive PyErr where
  | importError (msg : String)
  | valueError (msg : String)
  | attributeError (msg : String)
  | notImplementedError (msg : String)
  | sequenceError (msg : String)
deriving DecidableEq

/-- A registered integrator class as the registry sees it: its Python class
name (cl.__name__), the names of its attributes (consulted by hasattr), and
the value of its `name` attribute (the alias consulted on line 419 of dae.py).
Every concrete backend class carries a `name` attribute, so the attribute
access cl.name is modelled as total. -/
structure IntegratorClass where
  clsName : String
  attrs : List String
  nameAttr : String
deriving DecidableEq

/-- Lowercased character content of a string, used to model Python
case-insensitive matching (ASCII backend names). -/
def lowerStr (s : String) : List Char :=
  s.data.map Char.toLower

/-- Model of Python re.match(pat, s, re.I) restricted to the literal fragment
(patterns without regex metacharacters, which covers backend names): the
pattern matches at the start of s, case-insensitively, i.e. the lowercased
pattern is a leading part of the lowercased target. Note re.match anchors at
the start only, never at the end. -/
def reMatchCI (pat s : String) : Bool :=
  List.isPrefixOf (lowerStr pat) (lowerStr s)

/-- The resolution loop of find_dae_integrator (src lines 416-420): the first
registered class whose __name__ matches the requested pattern wins; otherwise,
when the class has an attribute named like the request, its `name` alias is
tried against the pattern as well. -/
def findIntegrator : List IntegratorClass → String → Option IntegratorClass
  | [], _ => none
  | cl :: rest, name =>
    if reMatchCI name cl.clsName then some cl
    else if cl.attrs.contains name && reMatchCI name cl.nameAttr then some cl
    else findIntegrator rest name

/-- The post-discovery body of find_dae_integrator (src lines 416-421): either
the matched class is returned, or ValueError is raised. The Option in the ok
branch records the Python possibility of returning None (which this body never
does, see claim C10). -/
def find_dae_integrator (registry : List IntegratorClass) (name : String) :
    Except PyErr (Option IntegratorClass) :=
  match findIntegrator registry name with
  | some cl => Except.ok (some cl)
  | none => Except.error (PyErr.valueError ("Integrator name " ++ name ++ " does not exsist"))

/-- dae.__init__ (src lines 251-257): resolve the name, raise ValueError when
the resolver returned None, otherwise bind the facade to the resolved class.
The instantiation integrator(eqsres, **options) is abstracted: the facade
binds the resolved class itself. repr quoting of the name is omitted from the
None-branch message, which claim C10 shows unreachable anyway. -/
def dae_init (registry : List IntegratorClass) (name : String) :
    Except PyErr IntegratorClass :=
  match find_dae_integrator registry name with
  | Except.error e => Except.error e
  | Except.ok none =>
      Except.error (PyErr.valueError ("No integrator name match with " ++ name ++ " or is not available."))
  | Except.ok (some cl) => Except.ok cl

/-- The name-matching policy as the spec words it: a requested name matches a
registered implementation only via case-insensitive exact equality with the
canonical class identifier, or with the alias identifier the implementation
exposes. This is the spec-side definition compared against the source-side
findIntegrator in claim C1. -/
def specMatches (name : String) (cl : IntegratorClass) : Bool :=
  (lowerStr name == lowerStr cl.clsName)
    || (cl.attrs.contains "name" && lowerStr name == lowerStr cl.nameAttr)

/-- Modelled from the spec: the IDA backend class contributed by the sundials
module, which is not under src. Class name IDA, alias attribute name = ida,
plus the contract attributes every backend carries. -/
def IDA : IntegratorClass :=
  { clsName := "IDA"
    attrs := ["name", "integrator_classes", "set_options", "solve", "init_step", "step"]
    nameAttr := "ida" }

/-- Modelled from the spec: the ddaspk backend class contributed by the
ddaspkint module, which is not under src. -/
def ddaspk : IntegratorClass :=
  { clsName := "ddaspk"
    attrs := ["name", "integrator_classes", "set_options", "solve", "init_step", "step"]
    nameAttr := "ddaspk" }

/-- Modelled from the spec: the lsodi backend class contributed by the
lsodiint module, which is not under src. -/
def lsodi : IntegratorClass :=
  { clsName := "lsodi"
    attrs := ["name", "integrator_classes", "set_options", "solve", "init_step", "step"]
    nameAttr := "lsodi" }

/-- Module-level mutable state of dae.py: the class attribute dae.LOADED
(src line 249) and the list DaeBase.integrator_classes (src line 50). -/
structure DaeModuleState where
  LOADED : Bool
  integrator_classes : List IntegratorClass
deriving DecidableEq

/-- Outcome of probing one backend import during discovery. Modelled from the
spec: loading a backend may fail with a missing-dependency ImportError or a
construction-time ValueError; the probed modules themselves are not under
src. -/
inductive ProbeOutcome where
  | ok
  | importError (msg : String)
  | valueError (msg : String)
deriving DecidableEq

/-- Registration effect of one probe: a successful import appends the backend
class to DaeBase.integrator_classes (src line 396 for ida; modelled from the
spec for the ddaspkint and lsodiint modules, which register on import); a
failed probe leaves the registry unchanged. -/
def appendIf (c : IntegratorClass) (st : DaeModuleState) : ProbeOutcome → DaeModuleState
  | ProbeOutcome.ok => { st with integrator_classes := st.integrator_classes ++ [c] }
  | ProbeOutcome.importError _ => st
  | ProbeOutcome.valueError _ => st

/-- Diagnostics printed by the ida probe (src lines 397-400): both ValueError
and ImportError are caught and reported. -/
def idaPrint : ProbeOutcome → List String
  | ProbeOutcome.ok => []
  | ProbeOutcome.importError m => [m]
  | ProbeOutcome.valueError m => ["Could not load IDA solver " ++ m]

/-- Diagnostics printed by the ddaspk and lsodi probes (src lines 405-406 and
411-412): only ImportError is caught and reported; a ValueError is not caught
there (it propagates, printing nothing). -/
def importPrint : ProbeOutcome → List String
  | ProbeOutcome.ok => []
  | ProbeOutcome.importError m => [m]
  | ProbeOutcome.valueError _ => []

/-- Line 414 of dae.py: dae.LOADED = True, reached only when no probe raised
an uncaught exception. -/
def setLoaded (st : DaeModuleState) : DaeModuleState :=
  { st with LOADED := true }

/-- Result of one discovery pass: the module state after it (mutations made
before an uncaught exception persist), the diagnostics printed, which probes
were attempted, and the exception escaping the pass, if any. -/
structure DiscResult where
  state : DaeModuleState
  printed : List String
  probes : List String
  raised : Option PyErr
deriving DecidableEq

/-- The discovery pass of find_dae_integrator (src lines 392-414), with the
outcome of each backend probe as a parameter. The ida probe catches both
ValueError and ImportError; the ddaspk and lsodi probes catch only
ImportError, so a ValueError there escapes, skipping the remaining probes and
line 414. -/
def runDiscovery (st : DaeModuleState) (oi od ol : ProbeOutcome) : DiscResult :=
  match od with
  | ProbeOutcome.valueError m =>
      { state := appendIf IDA st oi
        printed := idaPrint oi
        probes := ["ida", "ddaspk"]
        raised := some (PyErr.valueError m) }
  | od' =>
    match ol with
    | ProbeOutcome.valueError m =>
        { state := appendIf ddaspk (appendIf IDA st oi) od'
          printed := idaPrint oi ++ importPrint od'
          probes := ["ida", "ddaspk", "lsodi"]
          raised := some (PyErr.valueError m) }
    | ol' =>
        { state := setLoaded (appendIf lsodi (appendIf ddaspk (appendIf IDA st oi) od') ol')
          printed := idaPrint oi ++ importPrint od' ++ importPrint ol'
          probes := ["ida", "ddaspk", "lsodi"]
          raised := none }

/-- Observable effect of one call to find_dae_integrator: resulting module
state, diagnostics printed, probes attempted, and the returned class or the
raised exception. -/
structure CallResult where
  state : DaeModuleState
  printed : List String
  probes : List String
  result : Except PyErr (Option IntegratorClass)

/-- One full call of find_dae_integrator (src lines 391-421): when dae.LOADED
is already set the discovery block is skipped entirely and only the registry
list is consulted; otherwise the discovery pass runs first, and an exception
escaping it propagates out of the call. -/
def find_dae_integrator_call (st : DaeModuleState) (oi od ol : ProbeOutcome)
    (name : String) : CallResult :=
  if st.LOADED then
    { state := st, printed := [], probes := []
      result := find_dae_integrator st.integrator_classes name }
  else
    let d := runDiscovery st oi od ol
    match d.raised with
    | some e => { state := d.state, printed := d.printed, probes := d.probes
                  result := Except.error e }
    | none => { state := d.state, printed := d.printed, probes := d.probes
                result := find_dae_integrator d.state.integrator_classes name }

/-- The abstract DaeBase constructor __init__ (src lines 52-53): always raises
NotImplementedError. -/
def DaeBase.init {ResT OptT A : Type} (Rfn : ResT) (options : OptT) : Except PyErr A :=
  let _ := Rfn
  let _ := options
  Except.error (PyErr.notImplementedError "all DAE solvers must implement this")

/-- DaeBase.set_options (src lines 55-61): always raises NotImplementedError. -/
def DaeBase.set_options {OptT A : Type} (options : OptT) : Except PyErr A :=
  let _ := options
  Except.error (PyErr.notImplementedError "all DAE solvers must implement this")

/-- DaeBase.solve (src lines 63-97): always raises NotImplementedError. -/
def DaeBase.solve {T V A : Type} (tspan : List T) (y0 yp0 : V) : Except PyErr A :=
  let _ := (tspan, y0, yp0)
  Except.error (PyErr.notImplementedError "all DAE solvers must implement this")

/-- DaeBase.init_step (src lines 99-130): always raises NotImplementedError. -/
def DaeBase.init_step {T V A : Type} (t0 : T) (y0 yp0 : V)
    (y_ic0_retn yp_ic0_retn : Option V) : Except PyErr A :=
  let _ := (t0, y0, yp0, y_ic0_retn, yp_ic0_retn)
  Except.error (PyErr.notImplementedError "all DAE solvers must implement this")

/-- DaeBase.step (src lines 132-173): always raises NotImplementedError. -/
def DaeBase.step {T V A : Type} (t : T) (y_retn yp_retn : Option V) : Except PyErr A :=
  let _ := (t, y_retn, yp_retn)
  Except.error (PyErr.notImplementedError "all DAE solvers must implement this")

/-- A concrete backend instance as the facade sees it: one function per
contract operation, with abstract argument and result types. -/
structure IntegratorInstance (Opt T V R : Type) where
  set_options : Opt → R
  solve : List T → V → V → R
  init_step : T → V → V → Option V → Option V → R
  step : T → Option V → Option V → R

/-- The facade object: self._integrator is the single owned backend instance
(src line 257). -/
structure DaeFacade (Opt T V R : Type) where
  _integrator : IntegratorInstance Opt T V R

/-- dae.set_options (src lines 259-266): returns self._integrator.set_options(**options). -/
def dae.set_options {Opt T V R : Type} (self : DaeFacade Opt T V R) (options : Opt) : R :=
  self._integrator.set_options options

/-- dae.solve (src lines 268-302): returns self._integrator.solve(tspan, y0, yp0). -/
def dae.solve {Opt T V R : Type} (self : DaeFacade Opt T V R)
    (tspan : List T) (y0 yp0 : V) : R :=
  self._integrator.solve tspan y0 yp0

/-- dae.init_step (src lines 304-337): returns
self._integrator.init_step(t0, y0, yp0, y_ic0_retn, yp_ic0_retn). -/
def dae.init_step {Opt T V R : Type} (self : DaeFacade Opt T V R)
    (t0 : T) (y0 yp0 : V) (y_ic0_retn yp_ic0_retn : Option V) : R :=
  self._integrator.init_step t0 y0 yp0 y_ic0_retn yp_ic0_retn

/-- dae.step (src lines 339-379): returns self._integrator.step(t, y_retn, yp_retn). -/
def dae.step {Opt T V R : Type} (self : DaeFacade Opt T V R)
    (t : T) (y_retn yp_retn : Option V) : R :=
  self._integrator.step t y_retn yp_retn

/-- Modelled from the spec: a concrete stepping backend, not under src, which
tracks whether init_step has run; step before init_step fails with the spec's
SequenceError. The numerical behavior after initialization is the abstract
function stepImpl. -/
structure SteppingBackend (T V R : Type) where
  initialized : Bool
  stepImpl : T → Option V → Option V → R

/-- Modelled from the spec: backend step, guarded by the initialized flag. -/
def backend_step {T V R : Type} (self : SteppingBackend T V R)
    (t : T) (y_retn yp_retn : Option V) : Except PyErr R :=
  if self.initialized then Except.ok (self.stepImpl t y_retn yp_retn)
  else Except.error (PyErr.sequenceError "step called before init_step")

/-- Modelled from the spec: backend init_step marks the instance initialized. -/
def backend_init_step {T V R : Type} (self : SteppingBackend T V R) : SteppingBackend T V R :=
  { self with initialized := true }

/-- The facade over a stateful stepping backend. -/
structure DaeS (T V R : Type) where
  _integrator : SteppingBackend T V R

/-- dae.__init__ (src line 257): the backend instance is constructed fresh,
so it starts not initialized. -/
def dae.constructS {T V R : Type} (impl : T → Option V → Option V → R) : DaeS T V R :=
  { _integrator := { initialized := false, stepImpl := impl } }

/-- dae.step forwarding (src line 379) over the stateful backend view. -/
def dae.stepS {T V R : Type} (self : DaeS T V R)
    (t : T) (y_retn yp_retn : Option V) : Except PyErr R :=
  backend_step self._integrator t y_retn yp_retn

/-- dae.init_step forwarding (src line 337) over the stateful backend view:
returns the facade whose backend is now initialized. -/
def dae.init_stepS {T V R : Type} (self : DaeS T V R) : DaeS T V R :=
  { _integrator := backend_init_step self._integrator }

/-- Ownership state of the facade for disposal: _integrator is the owned
backend attribute; none models the attribute having been removed by
del self._integrator. From src lines 381-385. -/
structure DaeOwner (B : Type) where
  _integrator : Option B
deriving DecidableEq

/-- dae.__del__ (src lines 381-385): del self._integrator removes the
attribute when present; when the attribute was already removed, the del
statement raises AttributeError. -/
def dae_del {B : Type} (self : DaeOwner B) : Except PyErr (DaeOwner B) :=
  match self._integrator with
  | some _ => Except.ok { _integrator := none }
  | none => Except.error (PyErr.attributeError "_integrator")

/-! ### Helper lemmas -/

theorem isPrefixOf_self (l : List Char) : List.isPrefixOf l l = true := by
  simp [List.isPrefixOf_iff_prefix]

theorem findIntegrator_cons_hit (name : String) (cl : IntegratorClass)
    (rest : List IntegratorClass) (heq : lowerStr name = lowerStr cl.clsName) :
    findIntegrator (cl :: rest) name = some cl := by
  have h : reMatchCI name cl.clsName = true := by
    unfold reMatchCI
    rw [heq]
    exact isPrefixOf_self _
  simp [findIntegrator, h]

theorem skip_pair (name : String) (cl cl' : IntegratorClass) (rest : List IntegratorClass)
    (heq : lowerStr name = lowerStr cl.clsName)
    (h1 : List.isPrefixOf (lowerStr cl.clsName) (lowerStr cl'.clsName) = false)
    (h2 : lowerStr cl.clsName ∉ cl'.attrs.map lowerStr) :
    findIntegrator (cl' :: rest) name = findIntegrator rest name := by
  have hm : reMatchCI name cl'.clsName = false := by
    unfold reMatchCI
    rw [heq]
    exact h1
  have hnotmem : name ∉ cl'.attrs := by
    intro hmem
    have hmap : lowerStr name ∈ cl'.attrs.map lowerStr := List.mem_map_of_mem _ hmem
    rw [heq] at hmap
    exact h2 hmap
  simp [findIntegrator, hm, hnotmem]

theorem findIntegrator_to_dae_init (registry : List IntegratorClass) (name : String)
    (cl : IntegratorClass) (h : findIntegrator registry name = some cl) :
    dae_init registry name = Except.ok cl := by
  simp [dae_init, find_dae_integrator, h]

theorem probe_not_valueError (o : ProbeOutcome) (h : ∀ m, o ≠ ProbeOutcome.valueError m) :
    o = ProbeOutcome.ok ∨ ∃ m, o = ProbeOutcome.importError m := by
  cases o with
  | ok => exact Or.inl rfl
  | importError m => exact Or.inr ⟨m, rfl⟩
  | valueError m => exact absurd rfl (h m)

/-! ### Claim theorems -/

/-- C1, counterexample: backend-name resolution does not use exact-match
semantics. The requested name "id" is neither case-insensitively equal to the
canonical identifier IDA nor to its alias ida, so under the spec's policy it
matches nothing; yet the code's re.match-based loop resolves it to the IDA
class and the facade binds to it. -/
theorem c1_regex_matching_counterexample :
    findIntegrator [IDA] "id" = some IDA ∧
    dae_init [IDA] "id" = Except.ok IDA ∧
    specMatches "id" IDA = false := by
  refine ⟨by decide, ?_, by decide⟩
  exact findIntegrator_to_dae_init [IDA] "id" IDA (by decide)

/-- C1, amended: resolution uses re.match with re.I, which anchors at the
start only. A requested name resolves exactly when some registered class's
canonical identifier, or its alias identifier when the class exposes an
attribute named like the request, starts with the requested name
case-insensitively; the first such class in registration order wins, and in
particular proper leading parts such as "id" resolve. -/
theorem c1_resolution_soundness_amended (registry : List IntegratorClass) (name : String)
    (cl : IntegratorClass) (h : findIntegrator registry name = some cl) :
    cl ∈ registry ∧
    (reMatchCI name cl.clsName = true ∨
      (name ∈ cl.attrs ∧ reMatchCI name cl.nameAttr = true)) := by
  induction registry with
  | nil => simp [findIntegrator] at h
  | cons a rest ih =>
    have hcons : findIntegrator (a :: rest) name =
        if reMatchCI name a.clsName then some a
        else if a.attrs.contains name && reMatchCI name a.nameAttr then some a
        else findIntegrator rest name := rfl
    rw [hcons] at h
    by_cases h1 : reMatchCI name a.clsName = true
    · rw [if_pos h1] at h
      injection h with h
      subst h
      exact ⟨List.mem_cons_self _ _, Or.inl h1⟩
    · rw [if_neg h1] at h
      by_cases hb : (a.attrs.contains name && reMatchCI name a.nameAttr) = true
      · rw [if_pos hb] at h
        injection h with h
        subst h
        have hsplit := Bool.and_eq_true_iff.mp hb
        refine ⟨List.mem_cons_self _ _, Or.inr ⟨?_, hsplit.2⟩⟩
        simpa using hsplit.1
      · rw [if_neg hb] at h
        rcases ih h with ⟨hm, hmr⟩
        exact ⟨List.mem_cons_of_mem _ hm, hmr⟩

/-- C1, witness for the amended soundness theorem at the concrete input
"id" over the registry holding only IDA. -/
theorem c1_resolution_soundness_witness :
    findIntegrator [IDA] "id" = some IDA ∧ IDA ∈ [IDA] ∧
    (reMatchCI "id" IDA.clsName = true ∨
      ("id" ∈ IDA.attrs ∧ reMatchCI "id" IDA.nameAttr = true)) := by
  have h := c1_resolution_soundness_amended [IDA] "id" IDA (by decide)
  exact ⟨by decide, h.1, h.2⟩

/-- C4: when no registered class matches the requested name, the facade
constructor propagates find_dae_integrator's ValueError, whose message
contains the requested name, and no facade is produced. -/
theorem c4_name_not_found_error (registry : List IntegratorClass) (name : String)
    (h : findIntegrator registry name = none) :
    dae_init registry name
      = Except.error (PyErr.valueError ("Integrator name " ++ name ++ " does not exsist")) ∧
    (∃ before after, dae_init registry name
      = Except.error (PyErr.valueError (before ++ name ++ after))) ∧
    ∀ cl, dae_init registry name ≠ Except.ok cl := by
  have h1 : dae_init registry name
      = Except.error (PyErr.valueError ("Integrator name " ++ name ++ " does not exsist")) := by
    simp [dae_init, find_dae_integrator, h]
  refine ⟨h1, ⟨"Integrator name ", " does not exsist", h1⟩, ?_⟩
  intro cl hc
  rw [h1] at hc
  exact Except.noConfusion hc

/-- C4, witness: the name "nonexistent" matches none of the three backends
and construction fails with the ValueError carrying the name. -/
theorem c4_name_not_found_witness :
    findIntegrator [IDA, ddaspk, lsodi] "nonexistent" = none ∧
    dae_init [IDA, ddaspk, lsodi] "nonexistent"
      = Except.error (PyErr.valueError
          ("Integrator name " ++ "nonexistent" ++ " does not exsist")) := by
  have h := c4_name_not_found_error [IDA, ddaspk, lsodi] "nonexistent" (by decide)
  exact ⟨by decide, h.1⟩

/-- C6: every public facade operation is a pure pass-through: it invokes the
identically-named operation of the single owned backend instance with the
identical arguments and returns that backend's result unchanged. -/
theorem c6_facade_pass_through {Opt T V R : Type} (self : DaeFacade Opt T V R)
    (options : Opt) (tspan : List T) (y0 yp0 : V) (t0 t : T)
    (y_ic0_retn yp_ic0_retn y_retn yp_retn : Option V) :
    dae.set_options self options = self._integrator.set_options options ∧
    dae.solve self tspan y0 yp0 = self._integrator.solve tspan y0 yp0 ∧
    dae.init_step self t0 y0 yp0 y_ic0_retn yp_ic0_retn
      = self._integrator.init_step t0 y0 yp0 y_ic0_retn yp_ic0_retn ∧
    dae.step self t y_retn yp_retn = self._integrator.step t y_retn yp_retn :=
  ⟨rfl, rfl, rfl, rfl⟩

/-- C7: on a freshly constructed facade, step before init_step fails with
SequenceError for every argument, never yielding a result; after init_step the
same call goes through to the backend implementation. -/
theorem c7_step_before_init_sequence_error {T V R : Type}
    (impl : T → Option V → Option V → R) (t t' : T) (y_retn yp_retn : Option V) :
    dae.stepS (dae.constructS impl) t y_retn yp_retn
      = Except.error (PyErr.sequenceError "step called before init_step") ∧
    (∀ r : R, dae.stepS (dae.constructS impl) t y_retn yp_retn ≠ Except.ok r) ∧
    dae.stepS (dae.init_stepS (dae.constructS impl)) t' y_retn yp_retn
      = Except.ok (impl t' y_retn yp_retn) := by
  refine ⟨rfl, ?_, rfl⟩
  intro r hr
  simp [dae.stepS, dae.constructS, backend_step] at hr

/-- C8, counterexample: double disposal is not a no-op. The first call of
__del__ removes the owned backend attribute; invoking disposal a second time
on the same facade raises AttributeError instead of doing nothing. -/
theorem c8_double_disposal_counterexample :
    dae_del ({ _integrator := some () } : DaeOwner Unit)
      = Except.ok { _integrator := none } ∧
    dae_del ({ _integrator := none } : DaeOwner Unit)
      = Except.error (PyErr.attributeError "_integrator") :=
  ⟨rfl, rfl⟩

/-- C8, amended: the first disposal releases the owned backend instance
(removing the attribute), and a second explicit disposal on the same facade
raises AttributeError rather than being a no-op; the runtime itself invokes
__del__ at most once, so the release happens exactly once in normal use. -/
theorem c8_disposal_amended {B : Type} (b : B) :
    dae_del ({ _integrator := some b } : DaeOwner B)
      = Except.ok { _integrator := none } ∧
    dae_del ({ _integrator := none } : DaeOwner B)
      = Except.error (PyErr.attributeError "_integrator") :=
  ⟨rfl, rfl⟩

/-- C9: every operation of the abstract DaeBase contract raises
NotImplementedError when invoked on the base itself, and none of them ever
falls through to an ok result. -/
theorem c9_dae_base_not_implemented {ResT OptT A T V : Type}
    (Rfn : ResT) (options : OptT) (tspan : List T) (y0 yp0 : V) (t0 t : T)
    (y_ic0_retn yp_ic0_retn y_retn yp_retn : Option V) :
    (DaeBase.init Rfn options : Except PyErr A)
      = Except.error (PyErr.notImplementedError "all DAE solvers must implement this") ∧
    (DaeBase.set_options options : Except PyErr A)
      = Except.error (PyErr.notImplementedError "all DAE solvers must implement this") ∧
    (DaeBase.solve tspan y0 yp0 : Except PyErr A)
      = Except.error (PyErr.notImplementedError "all DAE solvers must implement this") ∧
    (DaeBase.init_step t0 y0 yp0 y_ic0_retn yp_ic0_retn : Except PyErr A)
      = Except.error (PyErr.notImplementedError "all DAE solvers must implement this") ∧
    (DaeBase.step t y_retn yp_retn : Except PyErr A)
      = Except.error (PyErr.notImplementedError "all DAE solvers must implement this") ∧
    (∀ a : A, (DaeBase.init Rfn options : Except PyErr A) ≠ Except.ok a) ∧
    (∀ a : A, (DaeBase.set_options options : Except PyErr A) ≠ Except.ok a) ∧
    (∀ a : A, (DaeBase.solve tspan y0 yp0 : Except PyErr A) ≠ Except.ok a) ∧
    (∀ a : A, (DaeBase.init_step t0 y0 yp0 y_ic0_retn yp_ic0_retn : Except PyErr A)
        ≠ Except.ok a) ∧
    (∀ a : A, (DaeBase.step t y_retn yp_retn : Except PyErr A) ≠ Except.ok a) := by
  refine ⟨rfl, rfl, rfl, rfl, rfl, ?_, ?_, ?_, ?_, ?_⟩ <;>
    intro a ha <;> exact Except.noConfusion ha

/-- C10: the resolution function never returns None: it either returns a
registered class or raises; consequently the None-check branch in
dae.__init__, with its own "No integrator name match" ValueError, is
unreachable for every registry and every requested name. -/
theorem c10_resolver_never_none (registry : List IntegratorClass) (name : String) :
    find_dae_integrator registry name ≠ Except.ok none ∧
    dae_init registry name
      ≠ Except.error (PyErr.valueError
          ("No integrator name match with " ++ name ++ " or is not available.")) := by
  cases hfi : findIntegrator registry name with
  | some cl =>
    constructor
    · simp [find_dae_integrator, hfi]
    · simp [dae_init, find_dae_integrator, hfi]
  | none =>
    constructor
    · simp [find_dae_integrator, hfi]
    · simp only [dae_init, find_dae_integrator, hfi]
      intro hmsg
      have hinj : ("Integrator name " ++ name ++ " does not exsist")
          = ("No integrator name match with " ++ name ++ " or is not available.") := by
        injection hmsg with h1
        injection h1
      have hlen := congrArg String.length hinj
      have e1 : ("Integrator name ").length = 16 := by decide
      have e2 : (" does not exsist").length = 16 := by decide
      have e3 : ("No integrator name match with ").length = 30 := by decide
      have e4 : (" or is not available.").length = 21 := by decide
      rw [String.length_append, String.length_append, String.length_append,
        String.length_append, e1, e2, e3, e4] at hlen
      omega

/-- C2, counterexample: discovery is not guaranteed to run at most once per
process. When a ValueError escapes the ddaspk probe, the first call to
find_dae_integrator neither probes lsodi nor reaches the line setting
dae.LOADED, so a second call runs the probes again — and registers the IDA
class a second time. -/
theorem c2_discovery_reruns_counterexample :
    (find_dae_integrator_call { LOADED := false, integrator_classes := [] }
        ProbeOutcome.ok (ProbeOutcome.valueError "boom") ProbeOutcome.ok "ida").state.LOADED
      = false ∧
    (find_dae_integrator_call { LOADED := false, integrator_classes := [] }
        ProbeOutcome.ok (ProbeOutcome.valueError "boom") ProbeOutcome.ok "ida").probes
      = ["ida", "ddaspk"] ∧
    (find_dae_integrator_call
        (find_dae_integrator_call { LOADED := false, integrator_classes := [] }
            ProbeOutcome.ok (ProbeOutcome.valueError "boom") ProbeOutcome.ok "ida").state
        ProbeOutcome.ok (ProbeOutcome.valueError "boom") ProbeOutcome.ok "ida").probes
      = ["ida", "ddaspk"] ∧
    (find_dae_integrator_call
        (find_dae_integrator_call { LOADED := false, integrator_classes := [] }
            ProbeOutcome.ok (ProbeOutcome.valueError "boom") ProbeOutcome.ok "ida").state
        ProbeOutcome.ok (ProbeOutcome.valueError "boom") ProbeOutcome.ok "ida").state.integrator_classes
      = [IDA, IDA] :=
  ⟨rfl, rfl, rfl, rfl⟩

/-- C2, amended: provided no probe raises an exception outside the caught set
(i.e. neither the ddaspk nor the lsodi probe raises ValueError), the first
resolution call with the flag unset probes all three backends and sets
dae.LOADED, and every later resolution skips probing entirely, leaves the
module state untouched, and only consults the already-populated registry
list. -/
theorem c2_discovery_once_amended (st : DaeModuleState) (oi od ol oi2 od2 ol2 : ProbeOutcome)
    (name name2 : String) (h0 : st.LOADED = false)
    (hd : ∀ m, od ≠ ProbeOutcome.valueError m) (hl : ∀ m, ol ≠ ProbeOutcome.valueError m) :
    (find_dae_integrator_call st oi od ol name).probes = ["ida", "ddaspk", "lsodi"] ∧
    (find_dae_integrator_call st oi od ol name).state.LOADED = true ∧
    (find_dae_integrator_call (find_dae_integrator_call st oi od ol name).state
        oi2 od2 ol2 name2).probes = [] ∧
    (find_dae_integrator_call (find_dae_integrator_call st oi od ol name).state
        oi2 od2 ol2 name2).state = (find_dae_integrator_call st oi od ol name).state ∧
    (find_dae_integrator_call (find_dae_integrator_call st oi od ol name).state
        oi2 od2 ol2 name2).result
      = find_dae_integrator
          (find_dae_integrator_call st oi od ol name).state.integrator_classes name2 := by
  rcases probe_not_valueError od hd with h | ⟨m1, h⟩ <;> subst h <;>
    rcases probe_not_valueError ol hl with h2 | ⟨m2, h2⟩ <;> subst h2 <;>
      simp [find_dae_integrator_call, runDiscovery, setLoaded, h0]

/-- C2, witness for the amended theorem: both probes benign (all three load),
the first call probes everything and sets the flag, the second call probes
nothing. -/
theorem c2_discovery_once_witness :
    (find_dae_integrator_call { LOADED := false, integrator_classes := [] }
        ProbeOutcome.ok ProbeOutcome.ok ProbeOutcome.ok "ida").probes
      = ["ida", "ddaspk", "lsodi"] ∧
    (find_dae_integrator_call { LOADED := false, integrator_classes := [] }
        ProbeOutcome.ok ProbeOutcome.ok ProbeOutcome.ok "ida").state.LOADED = true ∧
    (find_dae_integrator_call
        (find_dae_integrator_call { LOADED := false, integrator_classes := [] }
            ProbeOutcome.ok ProbeOutcome.ok ProbeOutcome.ok "ida").state
        ProbeOutcome.ok ProbeOutcome.ok ProbeOutcome.ok "IDA").probes = [] := by
  have h := c2_discovery_once_amended { LOADED := false, integrator_classes := [] }
      ProbeOutcome.ok ProbeOutcome.ok ProbeOutcome.ok
      ProbeOutcome.ok ProbeOutcome.ok ProbeOutcome.ok
      "ida" "IDA" rfl (fun m hm => nomatch hm) (fun m hm => nomatch hm)
  exact ⟨h.1, h.2.1, h.2.2.1⟩

/-- C3, counterexample: a construction-time ValueError is NOT caught for every
backend. When the ddaspk probe raises ValueError, the exception escapes the
discovery pass, nothing is printed for it, the lsodi probe is never attempted,
and lsodi fails to register even though it was independently loadable. -/
theorem c3_uncaught_valueerror_counterexample :
    (runDiscovery { LOADED := false, integrator_classes := [] }
        (ProbeOutcome.importError "no ida") (ProbeOutcome.valueError "bad build")
        ProbeOutcome.ok).raised
      = some (PyErr.valueError "bad build") ∧
    (runDiscovery { LOADED := false, integrator_classes := [] }
        (ProbeOutcome.importError "no ida") (ProbeOutcome.valueError "bad build")
        ProbeOutcome.ok).probes = ["ida", "ddaspk"] ∧
    (runDiscovery { LOADED := false, integrator_classes := [] }
        (ProbeOutcome.importError "no ida") (ProbeOutcome.valueError "bad build")
        ProbeOutcome.ok).state.integrator_classes = [] ∧
    (runDiscovery { LOADED := false, integrator_classes := [] }
        (ProbeOutcome.importError "no ida") (ProbeOutcome.valueError "bad build")
        ProbeOutcome.ok).state.LOADED = false :=
  ⟨rfl, rfl, rfl, rfl⟩

/-- C3, amended: an ImportError during any probe, and additionally a
ValueError during the ida probe, is caught with a diagnostic and does not
stop discovery: no exception escapes, all three probes run, and every backend
whose probe succeeds registers. Only a ValueError during the ddaspk or lsodi
probe (excluded by the hypotheses) escapes. -/
theorem c3_probe_isolation_amended (st : DaeModuleState) (oi od ol : ProbeOutcome)
    (hd : ∀ m, od ≠ ProbeOutcome.valueError m) (hl : ∀ m, ol ≠ ProbeOutcome.valueError m) :
    (runDiscovery st oi od ol).raised = none ∧
    (runDiscovery st oi od ol).probes = ["ida", "ddaspk", "lsodi"] ∧
    (oi = ProbeOutcome.ok → IDA ∈ (runDiscovery st oi od ol).state.integrator_classes) ∧
    (od = ProbeOutcome.ok → ddaspk ∈ (runDiscovery st oi od ol).state.integrator_classes) ∧
    (ol = ProbeOutcome.ok → lsodi ∈ (runDiscovery st oi od ol).state.integrator_classes) ∧
    (∀ m, oi = ProbeOutcome.importError m → m ∈ (runDiscovery st oi od ol).printed) ∧
    (∀ m, oi = ProbeOutcome.valueError m →
      ("Could not load IDA solver " ++ m) ∈ (runDiscovery st oi od ol).printed) ∧
    (∀ m, od = ProbeOutcome.importError m → m ∈ (runDiscovery st oi od ol).printed) ∧
    (∀ m, ol = ProbeOutcome.importError m → m ∈ (runDiscovery st oi od ol).printed) := by
  rcases probe_not_valueError od hd with h | ⟨m1, h⟩ <;> subst h <;>
    rcases probe_not_valueError ol hl with h2 | ⟨m2, h2⟩ <;> subst h2 <;>
      cases oi <;>
        simp [runDiscovery, appendIf, setLoaded, idaPrint, importPrint]

/-- C3, witness for the amended theorem: ida fails with a caught ValueError,
ddaspk with a caught ImportError, and lsodi still registers, with both
diagnostics printed and no exception escaping. -/
theorem c3_probe_isolation_witness :
    (runDiscovery { LOADED := false, integrator_classes := [] }
        (ProbeOutcome.valueError "v") (ProbeOutcome.importError "d") ProbeOutcome.ok).raised
      = none ∧
    lsodi ∈ (runDiscovery { LOADED := false, integrator_classes := [] }
        (ProbeOutcome.valueError "v") (ProbeOutcome.importError "d")
        ProbeOutcome.ok).state.integrator_classes ∧
    ("Could not load IDA solver " ++ "v") ∈ (runDiscovery { LOADED := false, integrator_classes := [] }
        (ProbeOutcome.valueError "v") (ProbeOutcome.importError "d") ProbeOutcome.ok).printed ∧
    "d" ∈ (runDiscovery { LOADED := false, integrator_classes := [] }
        (ProbeOutcome.valueError "v") (ProbeOutcome.importError "d") ProbeOutcome.ok).printed := by
  have h := c3_probe_isolation_amended { LOADED := false, integrator_classes := [] }
      (ProbeOutcome.valueError "v") (ProbeOutcome.importError "d") ProbeOutcome.ok
      (fun m hm => nomatch hm) (fun m hm => nomatch hm)
  exact ⟨h.1, h.2.2.2.2.1 rfl, h.2.2.2.2.2.2.1 "v" rfl, h.2.2.2.2.2.2.2.1 "d" rfl⟩

/-- Any registry produced by a discovery pass from the initial module state is
one of the eight order-respecting selections of the three backend classes. -/
theorem discovered_registry_cases (oi od ol : ProbeOutcome) :
    (runDiscovery { LOADED := false, integrator_classes := [] } oi od ol).state.integrator_classes
        = [] ∨
    (runDiscovery { LOADED := false, integrator_classes := [] } oi od ol).state.integrator_classes
        = [IDA] ∨
    (runDiscovery { LOADED := false, integrator_classes := [] } oi od ol).state.integrator_classes
        = [ddaspk] ∨
    (runDiscovery { LOADED := false, integrator_classes := [] } oi od ol).state.integrator_classes
        = [lsodi] ∨
    (runDiscovery { LOADED := false, integrator_classes := [] } oi od ol).state.integrator_classes
        = [IDA, ddaspk] ∨
    (runDiscovery { LOADED := false, integrator_classes := [] } oi od ol).state.integrator_classes
        = [IDA, lsodi] ∨
    (runDiscovery { LOADED := false, integrator_classes := [] } oi od ol).state.integrator_classes
        = [ddaspk, lsodi] ∨
    (runDiscovery { LOADED := false, integrator_classes := [] } oi od ol).state.integrator_classes
        = [IDA, ddaspk, lsodi] := by
  cases oi <;> cases od <;> cases ol <;>
    simp [runDiscovery, appendIf, setLoaded]

/-- Case-insensitive exact equality with a registered class's canonical name
resolves to exactly that class, over every registry a discovery pass can
produce: no earlier backend name shadows another backend's exact name. -/
theorem resolve_ci_eq_cases (registry : List IntegratorClass)
    (hreg : registry = [] ∨ registry = [IDA] ∨ registry = [ddaspk] ∨ registry = [lsodi] ∨
      registry = [IDA, ddaspk] ∨ registry = [IDA, lsodi] ∨ registry = [ddaspk, lsodi] ∨
      registry = [IDA, ddaspk, lsodi])
    (name : String) (cl : IntegratorClass)
    (hmem : cl ∈ registry) (heq : lowerStr name = lowerStr cl.clsName) :
    findIntegrator registry name = some cl := by
  rcases hreg with h | h | h | h | h | h | h | h <;> subst h
  · simp at hmem
  · have hc : cl = IDA := by simpa using hmem
    subst hc
    exact findIntegrator_cons_hit name IDA [] heq
  · have hc : cl = ddaspk := by simpa using hmem
    subst hc
    exact findIntegrator_cons_hit name ddaspk [] heq
  · have hc : cl = lsodi := by simpa using hmem
    subst hc
    exact findIntegrator_cons_hit name lsodi [] heq
  · rcases (by simpa using hmem : cl = IDA ∨ cl = ddaspk) with hc | hc <;> subst hc
    · exact findIntegrator_cons_hit name IDA [ddaspk] heq
    · rw [skip_pair name ddaspk IDA [ddaspk] heq (by decide) (by decide)]
      exact findIntegrator_cons_hit name ddaspk [] heq
  · rcases (by simpa using hmem : cl = IDA ∨ cl = lsodi) with hc | hc <;> subst hc
    · exact findIntegrator_cons_hit name IDA [lsodi] heq
    · rw [skip_pair name lsodi IDA [lsodi] heq (by decide) (by decide)]
      exact findIntegrator_cons_hit name lsodi [] heq
  · rcases (by simpa using hmem : cl = ddaspk ∨ cl = lsodi) with hc | hc <;> subst hc
    · exact findIntegrator_cons_hit name ddaspk [lsodi] heq
    · rw [skip_pair name lsodi ddaspk [lsodi] heq (by decide) (by decide)]
      exact findIntegrator_cons_hit name lsodi [] heq
  · rcases (by simpa using hmem : cl = IDA ∨ cl = ddaspk ∨ cl = lsodi) with hc | hc | hc <;>
      subst hc
    · exact findIntegrator_cons_hit name IDA [ddaspk, lsodi] heq
    · rw [skip_pair name ddaspk IDA [ddaspk, lsodi] heq (by decide) (by decide)]
      exact findIntegrator_cons_hit name ddaspk [lsodi] heq
    · rw [skip_pair name lsodi IDA [ddaspk, lsodi] heq (by decide) (by decide),
        skip_pair name lsodi ddaspk [lsodi] heq (by decide) (by decide)]
      exact findIntegrator_cons_hit name lsodi [] heq

/-- C5: for every requested name that is case-insensitively equal to the
canonical name of a backend registered by a discovery pass, facade
construction succeeds and binds the facade to exactly that backend. -/
theorem c5_ci_exact_resolution (oi od ol : ProbeOutcome) (name : String) (cl : IntegratorClass)
    (hmem : cl ∈ (runDiscovery { LOADED := false, integrator_classes := [] }
        oi od ol).state.integrator_classes)
    (heq : lowerStr name = lowerStr cl.clsName) :
    dae_init (runDiscovery { LOADED := false, integrator_classes := [] }
        oi od ol).state.integrator_classes name = Except.ok cl := by
  apply findIntegrator_to_dae_init
  exact resolve_ci_eq_cases _ (discovered_registry_cases oi od ol) name cl hmem heq

/-- C5, witness: with all three backends loaded, the names "IDA" and "ida"
both resolve to the same IDA implementation. -/
theorem c5_ci_exact_resolution_witness :
    dae_init (runDiscovery { LOADED := false, integrator_classes := [] }
        ProbeOutcome.ok ProbeOutcome.ok ProbeOutcome.ok).state.integrator_classes "IDA"
      = Except.ok IDA ∧
    dae_init (runDiscovery { LOADED := false, integrator_classes := [] }
        ProbeOutcome.ok ProbeOutcome.ok ProbeOutcome.ok).state.integrator_classes "ida"
      = Except.ok IDA ∧
    IDA ∈ (runDiscovery { LOADED := false, integrator_classes := [] }
        ProbeOutcome.ok ProbeOutcome.ok ProbeOutcome.ok).state.integrator_classes := by
  refine ⟨?_, ?_, by decide⟩
  · exact c5_ci_exact_resolution ProbeOutcome.ok ProbeOutcome.ok ProbeOutcome.ok
      "IDA" IDA (by decide) (by decide)
  · exact c5_ci_exact_resolution ProbeOutcome.ok ProbeOutcome.ok ProbeOutcome.ok
      "ida" IDA (by decide) (by decide)
